import Mathlib

/-!
Shallow embedding of the ELD trip planner core (src/trips/services.py,
src/trips/views.py, src/constants.py, src/trips/models/).

Numbers are modelled as exact rationals (the Python code uses floats).
Python's two-decimal rounding is modelled as round-half-up to centths;
the difference to float bankers rounding only matters at exact ties,
which none of the statements below depend on.

External collaborators (geocoder, POI search, great-circle distance and
the current date) are passed in as explicit stub parameters, mirroring
the spec's view that only their contracts are consumed.
-/

namespace EldPlanner

/-- Coordinate pair; the route geometry stores (longitude, latitude),
stop metadata stores (latitude, longitude), as in the Python source. -/
abbrev Coord := ℚ × ℚ

/-- Constants from src/constants.py. -/
def MAX_CYCLE_HOURS : ℚ := 70

def MAX_DAILY_DRIVING : ℚ := 11

def MAX_CONSECUTIVE_DRIVING : ℚ := 8

def AVERAGE_SPEED : ℚ := 50

def FUEL_INTERVAL : ℚ := 1000

def REST_BREAK_INTERVAL : ℚ := 8

/-- Python round(x, 2): round to two decimal places (modelled half-up). -/
def round2 (q : ℚ) : ℚ := (⌊q * 100 + 1 / 2⌋ : ℚ) / 100

/-- The open JSON metadata dict carried by stops and events.  Every key the
source ever writes is a field; a key that is absent from a given dict is
modelled as none.  Python's "from"/"to" keys are named src/dst ("from" is a
Lean keyword).  search_radius_km holds none both for an absent key and for
an explicit null, which the claims never distinguish. -/
structure Metadata where
  coordinates : Option Coord := none
  purpose : Option String := none
  address : Option String := none
  estimated_mileage : Option ℚ := none
  is_fallback : Option Bool := none
  search_radius_km : Option ℕ := none
  src : Option String := none
  dst : Option String := none
  estimated_miles : Option ℚ := none
  deriving DecidableEq, Repr

/-- The Trip model (src/trips/models/trip.py); created_at is irrelevant to
the core and omitted. -/
structure Trip where
  current_location : String
  pickup_location : String
  dropoff_location : String
  current_cycle_used : ℚ
  deriving DecidableEq, Repr

/-- The Stop model (src/trips/models/stop.py); the trip foreign key is
implicit (every stop list handled below belongs to one trip). -/
structure Stop where
  location : String
  stop_type : String
  duration_minutes : ℤ
  sequence : ℕ
  metadata : Metadata
  deriving DecidableEq, Repr

/-- A point of interest as assembled by find_poi_near_location. -/
structure Poi where
  name : String
  address : String
  coordinates : Coord
  distance_km : ℚ
  deriving DecidableEq, Repr

/-- One event dict of an ELD log day ("end" is a Lean keyword, written
endT). -/
structure Event where
  type : String
  start : ℚ
  endT : ℚ
  location : String
  metadata : Option Metadata := none
  deriving DecidableEq, Repr

/-- One log-day dict emitted by generate_eld_logs_with_stops.  The date
string (now + day - 1 formatted) is modelled as the day count itself,
an integer offset from an abstract run date now. -/
structure LogDay where
  day : ℕ
  date : ℤ
  events : List Event
  odometer : ℚ
  deriving DecidableEq, Repr

/-- Mutable locals of generate_eld_logs_with_stops. -/
structure SimState where
  day : ℕ
  clock : ℚ
  odometer : ℚ
  dailyDrive : ℚ
  deriving DecidableEq, Repr

/-- The body of the while-loop in generate_eld_logs_with_stops after the
day-rollover check: carve one driving chunk, emit its LogDay (with the
mandatory 30-minute on_duty break appended into the same events list when
daily_drive_hours reaches 8), and return the remaining drive hours. -/
def driveChunk (now : ℤ) (prevLoc toLoc : String) (driveHours : ℚ)
    (st : SimState) : SimState × LogDay × ℚ :=
  let chunk := min (MAX_DAILY_DRIVING - st.dailyDrive) driveHours
  let eventStart := st.clock
  let eventEnd := st.clock + chunk
  let st1 : SimState :=
    { st with clock := eventEnd, odometer := st.odometer + chunk * AVERAGE_SPEED,
              dailyDrive := st.dailyDrive + chunk }
  let drivingEv : Event :=
    { type := "driving", start := round2 eventStart, endT := round2 eventEnd,
      location := "Driving to " ++ toLoc,
      metadata := some { src := some prevLoc, dst := some toLoc,
                         estimated_miles := some (round2 (chunk * AVERAGE_SPEED)) } }
  if 8 ≤ st1.dailyDrive then
    ({ st1 with clock := st1.clock + 1 / 2, dailyDrive := 0 },
     { day := st1.day, date := now + st1.day - 1,
       events := [drivingEv,
         { type := "on_duty", start := round2 st1.clock,
           endT := round2 (st1.clock + 1 / 2),
           location := "Mandatory 30-minute rest" }],
       odometer := round2 st1.odometer },
     driveHours - chunk)
  else
    (st1,
     { day := st1.day, date := now + st1.day - 1, events := [drivingEv],
       odometer := round2 st1.odometer },
     driveHours - chunk)

/-- The while drive_hours > 0 loop.  Fuel bounds the number of iterations;
every non-final iteration consumes at least the hours left to the 11-hour
cap, so ceil(driveHours) + 2 iterations always suffice (see driveLoop's
caller). -/
def driveLoop (now : ℤ) (prevLoc toLoc : String) :
    ℕ → ℚ → SimState → List LogDay → SimState × List LogDay
  | 0, _, st, logs => (st, logs)
  | fuel + 1, driveHours, st, logs =>
    if 0 < driveHours then
      let stLogs :=
        if MAX_DAILY_DRIVING ≤ st.dailyDrive ∨ 14 ≤ st.clock then
          (({ day := st.day + 1, clock := 0, odometer := st.odometer,
              dailyDrive := 0 } : SimState),
           logs ++ [{ day := st.day, date := now + st.day - 1, events := [],
                      odometer := round2 st.odometer }])
        else (st, logs)
      let next := driveChunk now prevLoc toLoc driveHours stLogs.1
      driveLoop now prevLoc toLoc fuel next.2.2 next.1 (stLogs.2 ++ [next.2.1])
    else (st, logs)

/-- Appending the stop's own event: roll to a new day first when the stop
would cross hour 24, then record a single event carrying the stop's type,
duration and metadata. -/
def stopStep (now : ℤ) (stop : Stop) (st : SimState) (logs : List LogDay) :
    SimState × List LogDay :=
  let dur : ℚ := (stop.duration_minutes : ℚ) / 60
  let st1 : SimState :=
    if 24 < st.clock + dur then
      { st with day := st.day + 1, clock := 0, dailyDrive := 0 }
    else st
  let entry : LogDay :=
    { day := st1.day, date := now + st1.day - 1,
      events := [{ type := stop.stop_type, start := round2 st1.clock,
                   endT := round2 (st1.clock + dur), location := stop.location,
                   metadata := some stop.metadata }],
      odometer := round2 st1.odometer }
  ({ st1 with clock := st1.clock + dur }, logs ++ [entry])

/-- The for-loop over stops: for each consecutive pair drive the segment
(great-circle distance of the stored coordinates, or an equal split of
total_miles when either coordinate is missing), then record the stop. -/
def simSegments (dist : Coord → Coord → ℚ) (now : ℤ) (totalMiles : ℚ)
    (n : ℕ) :
    Option Stop → List Stop → SimState → List LogDay → SimState × List LogDay
  | _, [], st, logs => (st, logs)
  | prevOpt, stop :: rest, st, logs =>
    let stLogs :=
      match prevOpt with
      | none => (st, logs)
      | some prev =>
        let segmentMiles :=
          match prev.metadata.coordinates, stop.metadata.coordinates with
          | some pc, some sc => dist pc sc
          | _, _ => totalMiles / ((n : ℚ) - 1)
        let driveHours := round2 (segmentMiles / AVERAGE_SPEED)
        driveLoop now prev.location stop.location (driveHours.ceil.toNat + 2)
          driveHours st logs
    let stLogs2 := stopStep now stop stLogs.1 stLogs.2
    simSegments dist now totalMiles n (some stop) rest stLogs2.1 stLogs2.2

/-- generate_eld_logs_with_stops (src/trips/services.py, lines 330-429).
dist stubs geopy's great_circle(..).miles, now is the run date
(datetime.now), stops is trip.stops ordered by sequence, and the raised
ValueError is the error branch. -/
def generate_eld_logs_with_stops (dist : Coord → Coord → ℚ) (now : ℤ)
    (stops : List Stop) (total_miles current_cycle_used : ℚ) :
    Except String (List LogDay) :=
  if MAX_CYCLE_HOURS - current_cycle_used ≤ 0 then
    Except.error "Driver has already exceeded 70-hr cycle."
  else
    Except.ok
      (simSegments dist now total_miles stops.length none stops
        { day := 1, clock := 0, odometer := 0, dailyDrive := 0 } []).2

/-- Python int() on a rational: truncation toward zero. -/
def pyInt (q : ℚ) : ℤ := if 0 ≤ q then ⌊q⌋ else ⌈q⌉

/-- Index selection of the Geometry Interpolator:
max(1, min(int(progress * len(route_coords)), len(route_coords) - 2)). -/
def interpolateIdx (n : ℕ) (progress : ℚ) : ℤ :=
  max 1 (min (pyInt (progress * (n : ℚ))) ((n : ℤ) - 2))

/-- route_coords[idx][::-1]: fetch the selected point and swap it from
(longitude, latitude) to (latitude, longitude). -/
def interpolateCoord (routeCoords : List Coord) (progress : ℚ) : Coord :=
  let p := routeCoords.getD (interpolateIdx routeCoords.length progress).toNat (0, 0)
  (p.2, p.1)

/-- The radius ladder of calculate_stop_points: try find_poi_near_location
at 10, 20 and 40 km, keeping the first hit together with the radius used. -/
def poiLadder (findPoi : Coord → List String → ℕ → Option Poi) (coords : Coord)
    (keywords : List String) : Option (Poi × ℕ) :=
  match findPoi coords keywords 10 with
  | some p => some (p, 10)
  | none =>
    match findPoi coords keywords 20 with
    | some p => some (p, 20)
    | none =>
      match findPoi coords keywords 40 with
      | some p => some (p, 40)
      | none => none

def fuel_keywords : List String := ["fuel", "gas station", "truck stop", "petrol station"]

def rest_keywords : List String :=
  ["rest area", "truck rest area", "highway rest stop", "rest station"]

/-- Step 2 of calculate_stop_points: the fuel-stop loop over the mile
markers i * 1000, i = 1..floor(total_miles / 1000), stopping at the first
marker at or beyond 0.95 * total_miles (the break statement). -/
def fuelStops (findPoi : Coord → List String → ℕ → Option Poi)
    (total_miles : ℚ) (routeCoords : List Coord) :
    ℕ → List ℕ → List Stop
  | _, [] => []
  | seq, i :: rest =>
    let mile_marker := (i : ℚ) * FUEL_INTERVAL
    if total_miles * (95 / 100) ≤ mile_marker then []
    else
      let coords := interpolateCoord routeCoords (mile_marker / total_miles)
      let poi := poiLadder findPoi coords fuel_keywords
      { location := (poi.map (·.1.name)).getD ("Fuel stop #" ++ toString i),
        stop_type := "fuel", duration_minutes := 30, sequence := seq,
        metadata :=
          { coordinates := some ((poi.map (·.1.coordinates)).getD coords),
            address := some ((poi.map (·.1.address)).getD ""),
            estimated_mileage := some mile_marker,
            purpose := some ("Fuel stop #" ++ toString i),
            is_fallback := some poi.isNone,
            search_radius_km := poi.map (·.2) } } ::
        fuelStops findPoi total_miles routeCoords (seq + 1) rest

/-- Step 3 of calculate_stop_points: the rest-stop loop over the break
miles i * 8 * 50, i = 1..floor((total_miles / 50) / 8), stopping at the
first marker at or beyond 0.9 * total_miles. -/
def restStops (findPoi : Coord → List String → ℕ → Option Poi)
    (total_miles : ℚ) (routeCoords : List Coord) :
    ℕ → List ℕ → List Stop
  | _, [] => []
  | seq, i :: rest =>
    let break_miles := (i : ℚ) * REST_BREAK_INTERVAL * AVERAGE_SPEED
    if total_miles * (9 / 10) ≤ break_miles then []
    else
      let coords := interpolateCoord routeCoords (break_miles / total_miles)
      let poi := poiLadder findPoi coords rest_keywords
      { location := (poi.map (·.1.name)).getD ("Rest stop #" ++ toString i),
        stop_type := "rest", duration_minutes := 30, sequence := seq,
        metadata :=
          { coordinates := some ((poi.map (·.1.coordinates)).getD coords),
            address := some ((poi.map (·.1.address)).getD ""),
            purpose := some ("Mandatory rest break #" ++ toString i),
            is_fallback := some poi.isNone,
            search_radius_km := poi.map (·.2) } } ::
        restStops findPoi total_miles routeCoords (seq + 1) rest

/-- Ordering used to model Python's sorted(stops, key=lambda x: x.sequence)
(any stable sort; the input is already sorted, see the theorems). -/
def seqLe (a b : Stop) : Prop := a.sequence ≤ b.sequence

instance : DecidableRel seqLe := fun a b => Nat.decLe a.sequence b.sequence

/-- The stop list the try-block of calculate_stop_points builds once the
geometry checks and both direct geocodes have succeeded: pickup at
sequence 1, the fuel and rest loops, dropoff at the final sequence, sorted
by sequence as the return statement does. -/
def successStops (findPoi : Coord → List String → ℕ → Option Poi)
    (trip : Trip) (total_miles : ℚ) (route_coords : List Coord)
    (pickup_coords dropoff_coords : Coord) : List Stop :=
  let pickup : Stop :=
    { location := trip.pickup_location, stop_type := "pickup",
      duration_minutes := 60, sequence := 1,
      metadata := { coordinates := some pickup_coords,
                    purpose := some "Load pickup" } }
  let fuelNeeded := (⌊total_miles / FUEL_INTERVAL⌋).toNat
  let fuels := fuelStops findPoi total_miles route_coords 2
    (List.range' 1 fuelNeeded)
  let estimated_drive_hours := total_miles / AVERAGE_SPEED
  let restNeeded := (⌊estimated_drive_hours / REST_BREAK_INTERVAL⌋).toNat
  let rests := restStops findPoi total_miles route_coords
    (2 + fuels.length) (List.range' 1 restNeeded)
  let dropoff : Stop :=
    { location := trip.dropoff_location, stop_type := "dropoff",
      duration_minutes := 60, sequence := 2 + fuels.length + rests.length,
      metadata := { coordinates := some dropoff_coords,
                    purpose := some "Unload delivery" } }
  List.insertionSort seqLe (pickup :: (fuels ++ rests ++ [dropoff]))

/-- The try-block of calculate_stop_points (steps 1-4 of the Stop Planner),
returning Except.error where the Python code raises.  geocode stubs the
geocoding provider (none = the call raises), findPoi stubs
find_poi_near_location (none = NotFound), route_geometry is none when the
geometry dict is falsy or lacks a coordinates key. -/
def calculate_stop_points_try (geocode : String → Option Coord)
    (findPoi : Coord → List String → ℕ → Option Poi) (trip : Trip)
    (total_miles : ℚ) (route_geometry : Option (List Coord)) :
    Except String (List Stop) :=
  match route_geometry with
  | none => Except.error "Invalid route geometry provided"
  | some route_coords =>
    if route_coords.length < 2 then
      Except.error "Route geometry has insufficient points"
    else
      match geocode trip.pickup_location with
      | none => Except.error ("Geocoding failed for " ++ trip.pickup_location)
      | some pickup_coords =>
        match geocode trip.dropoff_location with
        | none => Except.error ("Geocoding failed for " ++ trip.dropoff_location)
        | some dropoff_coords =>
          Except.ok (successStops findPoi trip total_miles route_coords
            pickup_coords dropoff_coords)

/-- calculate_stop_points (src/trips/services.py, lines 195-327): the
try-block above with the except-branch that substitutes the minimal
pickup/dropoff pair; the geocode calls inside that branch can themselves
raise, which propagates to the caller (the error case). -/
def calculate_stop_points (geocode : String → Option Coord)
    (findPoi : Coord → List String → ℕ → Option Poi) (trip : Trip)
    (total_miles : ℚ) (route_geometry : Option (List Coord)) :
    Except String (List Stop) :=
  match calculate_stop_points_try geocode findPoi trip total_miles route_geometry with
  | Except.ok stops => Except.ok stops
  | Except.error _ =>
    match geocode trip.pickup_location with
    | none => Except.error ("Geocoding failed for " ++ trip.pickup_location)
    | some pickup_coords =>
      match geocode trip.dropoff_location with
      | none => Except.error ("Geocoding failed for " ++ trip.dropoff_location)
      | some dropoff_coords =>
        Except.ok
          [{ location := trip.pickup_location, stop_type := "pickup",
             duration_minutes := 60, sequence := 1,
             metadata := { coordinates := some pickup_coords } },
           { location := trip.dropoff_location, stop_type := "dropoff",
             duration_minutes := 60, sequence := 2,
             metadata := { coordinates := some dropoff_coords } }]

/-- create_basic_trip_stops (src/trips/views.py, lines 92-119). -/
def create_basic_trip_stops (trip : Trip) : List Stop :=
  [{ location := trip.pickup_location, stop_type := "pickup",
     duration_minutes := 60, sequence := 1,
     metadata := { purpose := some "Load pickup (fallback)",
                   is_fallback := some true } },
   { location := trip.dropoff_location, stop_type := "dropoff",
     duration_minutes := 60, sequence := 2,
     metadata := { purpose := some "Unload delivery (fallback)",
                   is_fallback := some true } }]

/-- calculate_stops_with_fallback (src/trips/views.py, lines 82-90): use
the planner's list unless it raised or produced fewer than 2 stops, in
which case fall back to the basic itinerary. -/
def calculate_stops_with_fallback (geocode : String → Option Coord)
    (findPoi : Coord → List String → ℕ → Option Poi) (trip : Trip)
    (total_miles : ℚ) (route_geometry : Option (List Coord)) : List Stop :=
  match calculate_stop_points geocode findPoi trip total_miles route_geometry with
  | Except.ok stops =>
    if stops.length < 2 then create_basic_trip_stops trip else stops
  | Except.error _ => create_basic_trip_stops trip

/-- The well-formedness bundle of claim C6: non-empty, sequence numbers
exactly 1, 2, ... in order (hence unique, strictly ascending, starting at
1), first stop a pickup, last stop a dropoff. -/
def WellFormedStops (stops : List Stop) : Prop :=
  stops ≠ [] ∧ stops.map Stop.sequence = List.range' 1 stops.length ∧
  stops.head?.map Stop.stop_type = some "pickup" ∧
  stops.getLast?.map Stop.stop_type = some "dropoff"

/-- Modelled from the spec: the index formula of section 4.1, which reads
clamp(round(progress × len(route)), 1, len(route) − 2), i.e. rounding to
the nearest integer where the code truncates.  Kept only to compare with
interpolateIdx. -/
def interpolateIdxSpec (n : ℕ) (progress : ℚ) : ℤ :=
  max 1 (min (round (progress * (n : ℚ))) ((n : ℤ) - 2))

/-- Total hours of driving-type events recorded under a given day number. -/
def dayDrivingSum (d : ℕ) (logs : List LogDay) : ℚ :=
  (logs.map (fun l =>
    if l.day = d then
      (l.events.map (fun e =>
        if e.type = "driving" then e.endT - e.start else 0)).sum
    else 0)).sum

/-- Bounds every emitted event actually satisfies: the start is a
non-negative hour and the end never passes 25.5 (driving may start just
before the 14-hour window check and run up to 11 hours, and the 30-minute
break may follow). -/
def EventOk (e : Event) : Prop := 0 ≤ e.start ∧ e.endT ≤ 51 / 2

def AllEventsOk (logs : List LogDay) : Prop :=
  ∀ ld ∈ logs, ∀ e ∈ ld.events, EventOk e

/-- Stop durations as the planner and the views fallback produce them are
30 or 60 minutes; the simulator theorems only need them to be between 0
and one day. -/
def ValidDurations (stops : List Stop) : Prop :=
  ∀ s ∈ stops, 0 ≤ s.duration_minutes ∧ s.duration_minutes ≤ 1440

/-- The stop_type choices declared on the Stop model. -/
def stopTypeChoices : List String := ["rest", "fuel", "pickup", "dropoff"]

def ValidStopTypes (stops : List Stop) : Prop :=
  ∀ s ∈ stops, s.stop_type ∈ stopTypeChoices

/-- Odometer readings never decrease from one emitted LogDay to the next. -/
def OdoMono (logs : List LogDay) : Prop :=
  List.Chain' (fun a b => a.odometer ≤ b.odometer) logs

/-- How the odometer moves between consecutive emitted LogDays: a LogDay
headed by a driving event advances it by exactly that event's recorded
estimated_miles (chunk × 50); every other LogDay leaves it unchanged. -/
def odoStep (a b : LogDay) : Prop :=
  match b.events with
  | e :: _ =>
    if e.type = "driving" then
      ∃ m miles, e.metadata = some m ∧ m.estimated_miles = some miles ∧
        b.odometer = a.odometer + miles
    else b.odometer = a.odometer
  | [] => b.odometer = a.odometer

def OdoSteps (logs : List LogDay) : Prop := List.Chain' odoStep logs

/-- One log day with the date erased. -/
def eraseLD (ld : LogDay) : ℕ × List Event × ℚ := (ld.day, ld.events, ld.odometer)

/-- Log days with the dates erased, for the determinism-up-to-dates
statement. -/
def eraseDates (logs : List LogDay) : List (ℕ × List Event × ℚ) :=
  logs.map eraseLD

/-- Concrete stubs and inputs used by the closed statements below. -/
def zeroDist : Coord → Coord → ℚ := fun _ _ => 0

def tripX : Trip :=
  { current_location := "Chicago, IL", pickup_location := "St Louis, MO",
    dropoff_location := "Dallas, TX", current_cycle_used := 0 }

def pickupStopX : Stop :=
  { location := "St Louis, MO", stop_type := "pickup", duration_minutes := 60,
    sequence := 1, metadata := {} }

def dropoffStopX : Stop :=
  { location := "Dallas, TX", stop_type := "dropoff", duration_minutes := 60,
    sequence := 2, metadata := {} }

def geocodeStub : String → Option Coord := fun _ => some (1, 2)

def noPoi : Coord → List String → ℕ → Option Poi := fun _ _ _ => none

/-- The full log list produced at two coordinate-free stops,
total_miles = 1100 and current_cycle_used = 0 (run date 0): the mandatory
break after the second 11-hour driving chunk ends exactly at hour 24. -/
def sim1100Logs : List LogDay :=
  [{ day := 1, date := 0,
     events := [{ type := "pickup", start := 0, endT := 1,
                  location := "St Louis, MO", metadata := some {} }],
     odometer := 0 },
   { day := 1, date := 0,
     events := [{ type := "driving", start := 1, endT := 12,
                  location := "Driving to Dallas, TX",
                  metadata := some { src := some "St Louis, MO",
                                     dst := some "Dallas, TX",
                                     estimated_miles := some 550 } },
                { type := "on_duty", start := 12, endT := 25 / 2,
                  location := "Mandatory 30-minute rest" }],
     odometer := 550 },
   { day := 1, date := 0,
     events := [{ type := "driving", start := 25 / 2, endT := 47 / 2,
                  location := "Driving to Dallas, TX",
                  metadata := some { src := some "St Louis, MO",
                                     dst := some "Dallas, TX",
                                     estimated_miles := some 550 } },
                { type := "on_duty", start := 47 / 2, endT := 24,
                  location := "Mandatory 30-minute rest" }],
     odometer := 1100 },
   { day := 2, date := 1,
     events := [{ type := "dropoff", start := 0, endT := 1,
                  location := "Dallas, TX", metadata := some {} }],
     odometer := 1100 }]

/-- Invariant tying the emitted log list to the simulator state: the
odometer column is nondecreasing, consecutive entries obey odoStep, and
the last entry shows the (rounded) current odometer. -/
def OdoLogsInv (st : SimState) (logs : List LogDay) : Prop :=
  List.Chain' (fun a b => a.odometer ≤ b.odometer) logs ∧
  List.Chain' odoStep logs ∧
  ∀ a, logs.getLast? = some a → a.odometer = round2 st.odometer

/-- State invariant of the simulator: the clock and the
continuous-driving counter never go negative. -/
def StOk (st : SimState) : Prop := 0 ≤ st.clock ∧ 0 ≤ st.dailyDrive

/-- A rational that is a whole number of hundredths (the shape round2 and
every quantity derived from it takes). -/
def Cent (q : ℚ) : Prop := ∃ k : ℤ, q = (k : ℚ) / 100

/-- A 10-point route polyline used by the closed statements below. -/
def rteX : List Coord :=
  [(0, 0), (1, 1), (2, 2), (3, 3), (4, 4), (5, 5), (6, 6), (7, 7), (8, 8), (9, 9)]

/-- The success list the planner builds for tripX at total_miles = 1200 on
rteX with every POI lookup unresolved: one fuel stop (mile 1000, below the
95% cutoff 1140) and two rest stops (miles 400 and 800; mile 1200 is at or
beyond the 90% cutoff 1080). -/
def c7Stops : List Stop :=
  [{ location := "St Louis, MO", stop_type := "pickup", duration_minutes := 60,
     sequence := 1,
     metadata := { coordinates := some (1, 2), purpose := some "Load pickup" } },
   { location := "Fuel stop #1", stop_type := "fuel", duration_minutes := 30,
     sequence := 2,
     metadata := { coordinates := some (8, 8), purpose := some "Fuel stop #1",
                   address := some "", estimated_mileage := some 1000,
                   is_fallback := some true } },
   { location := "Rest stop #1", stop_type := "rest", duration_minutes := 30,
     sequence := 3,
     metadata := { coordinates := some (3, 3),
                   purpose := some "Mandatory rest break #1",
                   address := some "", is_fallback := some true } },
   { location := "Rest stop #2", stop_type := "rest", duration_minutes := 30,
     sequence := 4,
     metadata := { coordinates := some (6, 6),
                   purpose := some "Mandatory rest break #2",
                   address := some "", is_fallback := some true } },
   { location := "Dallas, TX", stop_type := "dropoff", duration_minutes := 60,
     sequence := 5,
     metadata := { coordinates := some (1, 2),
                   purpose := some "Unload delivery" } }]

end EldPlanner

namespace EldPlanner

/-- The fuel-stop loop assigns consecutive sequence numbers from its
starting counter. -/
theorem fuelStops_map_sequence (fp : Coord → List String → ℕ → Option Poi)
    (t : ℚ) (rc : List Coord) :
    ∀ (l : List ℕ) (seq : ℕ),
      (fuelStops fp t rc seq l).map Stop.sequence =
        List.range' seq (fuelStops fp t rc seq l).length := by
  intro l
  induction l with
  | nil => intro seq; rfl
  | cons i rest ih =>
    intro seq
    unfold fuelStops
    by_cases h : t * (95 / 100) ≤ (i : ℚ) * FUEL_INTERVAL
    · simp [h]
    · simp only [h, if_false, List.map_cons, List.length_cons, ih,
        List.range'_succ]

/-- The rest-stop loop assigns consecutive sequence numbers from its
starting counter. -/
theorem restStops_map_sequence (fp : Coord → List String → ℕ → Option Poi)
    (t : ℚ) (rc : List Coord) :
    ∀ (l : List ℕ) (seq : ℕ),
      (restStops fp t rc seq l).map Stop.sequence =
        List.range' seq (restStops fp t rc seq l).length := by
  intro l
  induction l with
  | nil => intro seq; rfl
  | cons i rest ih =>
    intro seq
    unfold restStops
    by_cases h : t * (9 / 10) ≤ (i : ℚ) * REST_BREAK_INTERVAL * AVERAGE_SPEED
    · simp [h]
    · simp only [h, if_false, List.map_cons, List.length_cons, ih,
        List.range'_succ]

theorem fuelStops_stop_type (fp : Coord → List String → ℕ → Option Poi)
    (t : ℚ) (rc : List Coord) :
    ∀ (l : List ℕ) (seq : ℕ) (s : Stop), s ∈ fuelStops fp t rc seq l →
      s.stop_type = "fuel" := by
  intro l
  induction l with
  | nil => intro seq s hs; cases hs
  | cons i rest ih =>
    intro seq s hs
    unfold fuelStops at hs
    by_cases h : t * (95 / 100) ≤ (i : ℚ) * FUEL_INTERVAL
    · simp [h] at hs
    · simp only [h, if_false, List.mem_cons] at hs
      rcases hs with rfl | hs
      · rfl
      · exact ih (seq + 1) s hs

theorem restStops_stop_type (fp : Coord → List String → ℕ → Option Poi)
    (t : ℚ) (rc : List Coord) :
    ∀ (l : List ℕ) (seq : ℕ) (s : Stop), s ∈ restStops fp t rc seq l →
      s.stop_type = "rest" := by
  intro l
  induction l with
  | nil => intro seq s hs; cases hs
  | cons i rest ih =>
    intro seq s hs
    unfold restStops at hs
    by_cases h : t * (9 / 10) ≤ (i : ℚ) * REST_BREAK_INTERVAL * AVERAGE_SPEED
    · simp [h] at hs
    · simp only [h, if_false, List.mem_cons] at hs
      rcases hs with rfl | hs
      · rfl
      · exact ih (seq + 1) s hs

/-- On an ascending marker list the break in the fuel loop is equivalent
to filtering: the loop emits one stop per marker below the 95% threshold. -/
theorem fuelStops_length_countP (fp : Coord → List String → ℕ → Option Poi)
    (t : ℚ) (rc : List Coord) :
    ∀ (l : List ℕ), l.Pairwise (· ≤ ·) → ∀ seq : ℕ,
      (fuelStops fp t rc seq l).length =
        l.countP
          (fun i : ℕ => decide ¬ (t * (95 / 100) ≤ (i : ℚ) * FUEL_INTERVAL)) := by
  intro l
  induction l with
  | nil => intro _ seq; rfl
  | cons i rest ih =>
    intro hp seq
    rcases List.pairwise_cons.mp hp with ⟨hi, hrest⟩
    unfold fuelStops
    by_cases h : t * (95 / 100) ≤ (i : ℚ) * FUEL_INTERVAL
    · have hz : rest.countP
          (fun i : ℕ => decide ¬ (t * (95 / 100) ≤ (i : ℚ) * FUEL_INTERVAL)) = 0 := by
        rw [List.countP_eq_zero]
        intro j hj
        have hij : (i : ℚ) * FUEL_INTERVAL ≤ (j : ℚ) * FUEL_INTERVAL := by
          have hji : (i : ℚ) ≤ (j : ℚ) := by exact_mod_cast hi j hj
          have hF : (0 : ℚ) < FUEL_INTERVAL := by norm_num [FUEL_INTERVAL]
          nlinarith
        simp only [decide_eq_true_eq, not_not]
        exact le_trans h hij
      have hpi : (decide ¬ (t * (95 / 100) ≤ (i : ℚ) * FUEL_INTERVAL)) = false := by
        simp [h]
      have hcount : List.countP
          (fun i : ℕ => decide ¬ (t * (95 / 100) ≤ (i : ℚ) * FUEL_INTERVAL))
          (i :: rest) = 0 := by
        simp only [List.countP_cons, hz, hpi, Bool.false_eq_true, if_false,
          Nat.add_zero]
      rw [hcount]
      simp [h]
    · simp only [h, if_false, List.length_cons, List.countP_cons]
      rw [ih hrest (seq + 1)]
      simp [h]

/-- Prepending 1 and appending 2 + m to the block 2, ..., m + 1 yields the
contiguous range 1, ..., m + 2. -/
theorem range_cons_append (m : ℕ) :
    1 :: (List.range' 2 m ++ [2 + m]) = List.range' 1 (m + 2) := by
  have h1 : List.range' 2 m ++ List.range' (2 + m) 1 = List.range' 2 (1 + m) := by
    simpa using List.range'_append 2 m 1 1
  rw [show ([2 + m] : List ℕ) = List.range' (2 + m) 1 from rfl, h1,
    show m + 2 = (1 + m) + 1 by omega, List.range'_succ]

/-- A pickup at sequence 1, a middle block at sequences 2, ..., and a
dropoff at the final sequence form a well-formed stop list, and sorting it
by sequence is the identity. -/
theorem presort_wf (p d : Stop) (mid : List Stop)
    (hp : p.stop_type = "pickup") (hd : d.stop_type = "dropoff")
    (hps : p.sequence = 1)
    (hmid : mid.map Stop.sequence = List.range' 2 mid.length)
    (hds : d.sequence = 2 + mid.length) :
    List.insertionSort seqLe (p :: (mid ++ [d])) = p :: (mid ++ [d]) ∧
      WellFormedStops (p :: (mid ++ [d])) := by
  have hmap : (p :: (mid ++ [d])).map Stop.sequence =
      List.range' 1 (p :: (mid ++ [d])).length := by
    have hlen : (p :: (mid ++ [d])).length = mid.length + 2 := by simp
    have hstep : (p :: (mid ++ [d])).map Stop.sequence =
        1 :: (List.range' 2 mid.length ++ [2 + mid.length]) := by
      simp [hps, hmid, hds]
    rw [hlen, hstep, range_cons_append]
  have hsorted : List.Sorted seqLe (p :: (mid ++ [d])) := by
    have hple : List.Pairwise (fun a b : ℕ => a ≤ b)
        ((p :: (mid ++ [d])).map Stop.sequence) := by
      rw [hmap]; exact List.pairwise_le_range' 1 _
    have hseq := (@List.pairwise_map Stop ℕ Stop.sequence
      (fun a b : ℕ => a ≤ b) (p :: (mid ++ [d]))).mp hple
    exact hseq.imp (fun hab => hab)
  refine ⟨hsorted.insertionSort_eq, ?_⟩
  unfold WellFormedStops
  refine ⟨by simp, hmap, by simp [hp], ?_⟩
  rw [show p :: (mid ++ [d]) = (p :: mid) ++ [d] by simp, List.getLast?_concat]
  simp [hd]

/-- Inversion of a successful try-block: a returned list is always the
sorted success list for some route coordinates and geocoded endpoints. -/
theorem try_ok_inv (geocode : String → Option Coord)
    (findPoi : Coord → List String → ℕ → Option Poi) (trip : Trip)
    (total_miles : ℚ) (route_geometry : Option (List Coord))
    (stops : List Stop)
    (h : calculate_stop_points_try geocode findPoi trip total_miles
      route_geometry = Except.ok stops) :
    ∃ rc pc dc, stops = successStops findPoi trip total_miles rc pc dc := by
  unfold calculate_stop_points_try at h
  rcases route_geometry with _ | rc
  · cases h
  · by_cases hlen : rc.length < 2
    · simp only [hlen, if_true] at h; cases h
    · simp only [hlen, if_false] at h
      rcases hpg : geocode trip.pickup_location with _ | pc <;> rw [hpg] at h
      · cases h
      · rcases hdg : geocode trip.dropoff_location with _ | dc <;> rw [hdg] at h
        · cases h
        · exact ⟨rc, pc, dc, (Except.ok.injEq _ _ ▸ h).symm⟩

/-- The success list of the planner is well formed. -/
theorem successStops_wf (findPoi : Coord → List String → ℕ → Option Poi)
    (trip : Trip) (total_miles : ℚ) (rc : List Coord) (pc dc : Coord) :
    WellFormedStops (successStops findPoi trip total_miles rc pc dc) := by
  unfold successStops
  have hmid : (fuelStops findPoi total_miles rc 2
        (List.range' 1 (⌊total_miles / FUEL_INTERVAL⌋).toNat) ++
      restStops findPoi total_miles rc
        (2 + (fuelStops findPoi total_miles rc 2
          (List.range' 1 (⌊total_miles / FUEL_INTERVAL⌋).toNat)).length)
        (List.range' 1
          (⌊total_miles / AVERAGE_SPEED / REST_BREAK_INTERVAL⌋).toNat)).map
      Stop.sequence =
      List.range' 2 (fuelStops findPoi total_miles rc 2
        (List.range' 1 (⌊total_miles / FUEL_INTERVAL⌋).toNat) ++
      restStops findPoi total_miles rc
        (2 + (fuelStops findPoi total_miles rc 2
          (List.range' 1 (⌊total_miles / FUEL_INTERVAL⌋).toNat)).length)
        (List.range' 1
          (⌊total_miles / AVERAGE_SPEED / REST_BREAK_INTERVAL⌋).toNat)).length := by
    rw [List.map_append, fuelStops_map_sequence, restStops_map_sequence]
    rw [List.length_append]
    have := List.range'_append 2
      (fuelStops findPoi total_miles rc 2
        (List.range' 1 (⌊total_miles / FUEL_INTERVAL⌋).toNat)).length
      (restStops findPoi total_miles rc
        (2 + (fuelStops findPoi total_miles rc 2
          (List.range' 1 (⌊total_miles / FUEL_INTERVAL⌋).toNat)).length)
        (List.range' 1
          (⌊total_miles / AVERAGE_SPEED / REST_BREAK_INTERVAL⌋).toNat)).length 1
    simp only [one_mul] at this
    rw [this, Nat.add_comm]
  have := presort_wf
    { location := trip.pickup_location, stop_type := "pickup",
      duration_minutes := 60, sequence := 1,
      metadata := { coordinates := some pc, purpose := some "Load pickup" } }
    { location := trip.dropoff_location, stop_type := "dropoff",
      duration_minutes := 60,
      sequence := 2 + (fuelStops findPoi total_miles rc 2
          (List.range' 1 (⌊total_miles / FUEL_INTERVAL⌋).toNat)).length +
        (restStops findPoi total_miles rc
          (2 + (fuelStops findPoi total_miles rc 2
            (List.range' 1 (⌊total_miles / FUEL_INTERVAL⌋).toNat)).length)
          (List.range' 1
            (⌊total_miles / AVERAGE_SPEED / REST_BREAK_INTERVAL⌋).toNat)).length,
      metadata := { coordinates := some dc, purpose := some "Unload delivery" } }
    _ rfl rfl rfl hmid (by simp [Nat.add_assoc])
  rw [this.1]
  exact this.2

/-- Any list the full planner (try-block plus except-branch) returns
successfully is well formed. -/
theorem planner_ok_wf (geocode : String → Option Coord)
    (findPoi : Coord → List String → ℕ → Option Poi) (trip : Trip)
    (total_miles : ℚ) (route_geometry : Option (List Coord))
    (stops : List Stop)
    (h : calculate_stop_points geocode findPoi trip total_miles
      route_geometry = Except.ok stops) : WellFormedStops stops := by
  unfold calculate_stop_points at h
  rcases htry : calculate_stop_points_try geocode findPoi trip total_miles
      route_geometry with e | s <;> rw [htry] at h
  · rcases hpg : geocode trip.pickup_location with _ | pc <;> rw [hpg] at h
    · cases h
    · rcases hdg : geocode trip.dropoff_location with _ | dc <;> rw [hdg] at h
      · cases h
      · obtain rfl := (Except.ok.injEq _ _ ▸ h)
        refine ⟨by simp, ?_, by simp, by simp⟩
        simp only [List.map_cons, List.map_nil, List.length_cons,
          List.length_nil]
        rfl
  · obtain rfl := (Except.ok.injEq _ _ ▸ h)
    obtain ⟨rc, pc, dc, rfl⟩ :=
      try_ok_inv geocode findPoi trip total_miles route_geometry s htry
    exact successStops_wf findPoi trip total_miles rc pc dc

/-- Claim C6: on every path (planner success, planner-internal fallback,
caller-level basic fallback) the stop list handed back by the views layer
is non-empty, its sequence numbers are exactly 1, 2, ... in order, it
begins with a pickup and ends with a dropoff. -/
theorem c6_stop_list_well_formed (geocode : String → Option Coord)
    (findPoi : Coord → List String → ℕ → Option Poi) (trip : Trip)
    (total_miles : ℚ) (route_geometry : Option (List Coord)) :
    WellFormedStops (calculate_stops_with_fallback geocode findPoi trip
      total_miles route_geometry) := by
  have hbasic : WellFormedStops (create_basic_trip_stops trip) := by
    refine ⟨by simp [create_basic_trip_stops], ?_,
      by simp [create_basic_trip_stops], by simp [create_basic_trip_stops]⟩
    simp only [create_basic_trip_stops, List.map_cons, List.map_nil,
      List.length_cons, List.length_nil]
    rfl
  unfold calculate_stops_with_fallback
  rcases hres : calculate_stop_points geocode findPoi trip total_miles
      route_geometry with e | stops
  · exact hbasic
  · by_cases hlen : stops.length < 2
    · simp only [hlen, if_true]
      exact hbasic
    · simp only [hlen, if_false]
      exact planner_ok_wf geocode findPoi trip total_miles route_geometry
        stops hres

/-- Claim C7: on the non-degraded path the number of fuel stops equals
floor(total_miles / 1000) minus the number of 1000-mile markers in
1..floor(total_miles / 1000) that lie at or beyond 95% of total_miles. -/
theorem c7_fuel_stop_count (geocode : String → Option Coord)
    (findPoi : Coord → List String → ℕ → Option Poi) (trip : Trip)
    (total_miles : ℚ) (route_geometry : Option (List Coord))
    (stops : List Stop) (ht : 0 ≤ total_miles)
    (h : calculate_stop_points_try geocode findPoi trip total_miles
      route_geometry = Except.ok stops) :
    (stops.countP (fun s => decide (s.stop_type = "fuel")) : ℤ) =
      ⌊total_miles / 1000⌋ -
        ((List.range' 1 (⌊total_miles / 1000⌋).toNat).countP
          (fun i : ℕ => decide ((95 / 100) * total_miles ≤ (i : ℚ) * 1000)) : ℤ) := by
  obtain ⟨rc, pc, dc, rfl⟩ :=
    try_ok_inv geocode findPoi trip total_miles route_geometry stops h
  unfold successStops
  rw [List.Perm.countP_eq _ (List.perm_insertionSort seqLe _)]
  rw [List.countP_cons, List.countP_append, List.countP_append,
    List.countP_cons]
  have hfuels : (fuelStops findPoi total_miles rc 2
      (List.range' 1 (⌊total_miles / FUEL_INTERVAL⌋).toNat)).countP
        (fun s => decide (s.stop_type = "fuel")) =
      (fuelStops findPoi total_miles rc 2
        (List.range' 1 (⌊total_miles / FUEL_INTERVAL⌋).toNat)).length := by
    rw [List.countP_eq_length]
    intro s hs
    simp [fuelStops_stop_type findPoi total_miles rc _ _ s hs]
  have hrests : (restStops findPoi total_miles rc
      (2 + (fuelStops findPoi total_miles rc 2
        (List.range' 1 (⌊total_miles / FUEL_INTERVAL⌋).toNat)).length)
      (List.range' 1
        (⌊total_miles / AVERAGE_SPEED / REST_BREAK_INTERVAL⌋).toNat)).countP
        (fun s => decide (s.stop_type = "fuel")) = 0 := by
    rw [List.countP_eq_zero]
    intro s hs
    simp [restStops_stop_type findPoi total_miles rc _ _ s hs]
  rw [hfuels, hrests]
  rw [fuelStops_length_countP findPoi total_miles rc _
    (List.pairwise_le_range' 1 _) 2]
  have hbridge : (List.range' 1 (⌊total_miles / FUEL_INTERVAL⌋).toNat).countP
      (fun i : ℕ => decide ¬ (total_miles * (95 / 100) ≤ (i : ℚ) * FUEL_INTERVAL)) =
      (List.range' 1 (⌊total_miles / 1000⌋).toNat).countP
        (fun i : ℕ =>
          decide ¬ ((95 / 100) * total_miles ≤ (i : ℚ) * 1000)) := by
    rw [show FUEL_INTERVAL = (1000 : ℚ) from rfl]
    exact List.countP_congr (fun i _ => by simp [mul_comm])
  rw [hbridge]
  have hsplit := List.length_eq_countP_add_countP
    (fun i : ℕ => decide ((95 / 100) * total_miles ≤ (i : ℚ) * 1000))
    (List.range' 1 (⌊total_miles / 1000⌋).toNat)
  rw [List.length_range'] at hsplit
  have hfloor : ((⌊total_miles / 1000⌋).toNat : ℤ) = ⌊total_miles / 1000⌋ := by
    refine Int.toNat_of_nonneg (Int.floor_nonneg.mpr ?_)
    positivity
  simp [not_le] at hsplit ⊢
  omega

theorem c7_fuel_stop_count_witness :
    (0 : ℚ) ≤ 1200 ∧
    calculate_stop_points_try geocodeStub noPoi tripX 1200 (some rteX) =
      Except.ok c7Stops ∧
    (c7Stops.countP (fun s => decide (s.stop_type = "fuel")) : ℤ) =
      ⌊(1200 : ℚ) / 1000⌋ -
        ((List.range' 1 (⌊(1200 : ℚ) / 1000⌋).toNat).countP
          (fun i : ℕ =>
            decide ((95 / 100) * (1200 : ℚ) ≤ (i : ℚ) * 1000)) : ℤ) := by
  have hok : calculate_stop_points_try geocodeStub noPoi tripX 1200
      (some rteX) = Except.ok c7Stops := by
    norm_num [calculate_stop_points_try, successStops, fuelStops, restStops,
      interpolateCoord, interpolateIdx, pyInt, poiLadder, geocodeStub, noPoi,
      tripX, rteX, c7Stops, FUEL_INTERVAL, AVERAGE_SPEED, REST_BREAK_INTERVAL,
      fuel_keywords, rest_keywords, seqLe, List.insertionSort,
      List.orderedInsert, List.range']
    simp
    decide
  exact ⟨by norm_num, hok,
    c7_fuel_stop_count geocodeStub noPoi tripX 1200 (some rteX) c7Stops
      (by norm_num) hok⟩

/-- Claim C1 (code evaluated at the failing input): with two stops that
carry no coordinates, total_miles = 1100 and current_cycle_used = 0, the
simulated day 1 accumulates 22 hours of driving events — twice the 11-hour
cap the claim (and the MAX_DAILY_DRIVING constant) states, because the
30-minute break resets the same counter that enforces the daily cap. -/
theorem c1_day1_driving_is_22 :
    (generate_eld_logs_with_stops zeroDist 0 [pickupStopX, dropoffStopX]
      1100 0).toOption.map (dayDrivingSum 1) = some 22 := by
  norm_num [generate_eld_logs_with_stops, simSegments, driveLoop, driveChunk,
    stopStep, round2, dayDrivingSum, MAX_CYCLE_HOURS, MAX_DAILY_DRIVING,
    AVERAGE_SPEED, pickupStopX, dropoffStopX, zeroDist, Except.toOption]
  simp
  norm_num

/-- Claim C2 counterexample: when step 1 of the planner raises (here: the
route geometry is invalid) and the direct geocodes succeed, the substituted
two-stop itinerary carries no is_fallback key at all (metadata holds only
the coordinates), contradicting the claim that both stops carry
is_fallback = true. -/
theorem c2_fallback_lacks_flag :
    (calculate_stop_points geocodeStub noPoi tripX 100 none).toOption.map
      (List.map (fun s => (s.stop_type, s.metadata.is_fallback))) =
    some [("pickup", none), ("dropoff", none)] := by
  norm_num [calculate_stop_points, calculate_stop_points_try, geocodeStub,
    tripX, Except.toOption]

/-- Claim C4 counterexample: the code truncates progress × len (Python
int()), it does not round: at a 10-point route and progress 0.27 the code
selects index 2 while the claimed clamp(round(2.7), 1, 8) selects 3. -/
theorem c4_truncation_not_rounding :
    interpolateIdx 10 (27 / 100) = 2 ∧ interpolateIdxSpec 10 (27 / 100) = 3 := by
  constructor <;> norm_num [interpolateIdx, interpolateIdxSpec, pyInt, round_eq]

/-- Claim C5: whenever current_cycle_used ≥ 70 the simulator fails with
the 70-hour-cycle error and produces no log records. -/
theorem c5_cycle_exceeded_fails (dist : Coord → Coord → ℚ) (now : ℤ)
    (stops : List Stop) (total_miles current_cycle_used : ℚ)
    (h : 70 ≤ current_cycle_used) :
    generate_eld_logs_with_stops dist now stops total_miles current_cycle_used =
      Except.error "Driver has already exceeded 70-hr cycle." := by
  have : MAX_CYCLE_HOURS - current_cycle_used ≤ 0 := by
    unfold MAX_CYCLE_HOURS; linarith
  simp [generate_eld_logs_with_stops, this]

theorem c5_cycle_exceeded_fails_witness :
    (70 : ℚ) ≤ 70 ∧
    generate_eld_logs_with_stops zeroDist 0 [pickupStopX, dropoffStopX] 2500 70 =
      Except.error "Driver has already exceeded 70-hr cycle." :=
  ⟨le_refl 70,
   c5_cycle_exceeded_fails zeroDist 0 [pickupStopX, dropoffStopX] 2500 70
     (le_refl 70)⟩

/-- Claim C2 (amended): when any exception is raised in steps 1-4 of the
Stop Planner and the direct geocodes of the handler succeed, the plan is
replaced by the minimal itinerary of exactly a pickup stop then a dropoff
stop whose metadata holds only the geocoded coordinates — in particular
neither stop carries an is_fallback flag (that flag is only set by the
caller-level create_basic_trip_stops fallback). -/
theorem c2_planner_fallback_minimal (geocode : String → Option Coord)
    (findPoi : Coord → List String → ℕ → Option Poi) (trip : Trip)
    (total_miles : ℚ) (route_geometry : Option (List Coord)) (err : String)
    (pc dc : Coord)
    (he : calculate_stop_points_try geocode findPoi trip total_miles
      route_geometry = Except.error err)
    (hp : geocode trip.pickup_location = some pc)
    (hd : geocode trip.dropoff_location = some dc) :
    calculate_stop_points geocode findPoi trip total_miles route_geometry =
      Except.ok
        [{ location := trip.pickup_location, stop_type := "pickup",
           duration_minutes := 60, sequence := 1,
           metadata := { coordinates := some pc } },
         { location := trip.dropoff_location, stop_type := "dropoff",
           duration_minutes := 60, sequence := 2,
           metadata := { coordinates := some dc } }] := by
  simp [calculate_stop_points, he, hp, hd]

theorem c2_planner_fallback_minimal_witness :
    calculate_stop_points_try geocodeStub noPoi tripX 100 none =
      Except.error "Invalid route geometry provided" ∧
    geocodeStub tripX.pickup_location = some (1, 2) ∧
    geocodeStub tripX.dropoff_location = some (1, 2) ∧
    calculate_stop_points geocodeStub noPoi tripX 100 none =
      Except.ok
        [{ location := tripX.pickup_location, stop_type := "pickup",
           duration_minutes := 60, sequence := 1,
           metadata := { coordinates := some (1, 2) } },
         { location := tripX.dropoff_location, stop_type := "dropoff",
           duration_minutes := 60, sequence := 2,
           metadata := { coordinates := some (1, 2) } }] :=
  ⟨rfl, rfl, rfl,
   c2_planner_fallback_minimal geocodeStub noPoi tripX 100 none
     "Invalid route geometry provided" (1, 2) (1, 2) rfl rfl rfl⟩

/-- Claim C4 (amended): with truncation in place of rounding, the clamp to
[1, len − 2] makes the selected index interior whenever the route has at
least 3 coordinates (for a 2-point route the clamp degenerates to index 1,
the final point). -/
theorem c4_interior_index (n : ℕ) (progress : ℚ) (h : 3 ≤ n) :
    1 ≤ interpolateIdx n progress ∧ interpolateIdx n progress ≤ (n : ℤ) - 2 := by
  unfold interpolateIdx
  refine ⟨le_max_left _ _, max_le (by omega) (min_le_right _ _)⟩

theorem c4_interior_index_witness :
    3 ≤ 10 ∧ 1 ≤ interpolateIdx 10 (27 / 100) ∧
      interpolateIdx 10 (27 / 100) ≤ (10 : ℤ) - 2 :=
  ⟨by norm_num, c4_interior_index 10 (27 / 100) (by norm_num)⟩

/-- round2 of a non-negative number is non-negative. -/
theorem round2_nonneg (q : ℚ) (h : 0 ≤ q) : 0 ≤ round2 q := by
  unfold round2
  have hf : (0 : ℤ) ≤ ⌊q * 100 + 1 / 2⌋ := Int.floor_nonneg.mpr (by linarith)
  have hc : (0 : ℚ) ≤ ((⌊q * 100 + 1 / 2⌋ : ℤ) : ℚ) := by exact_mod_cast hf
  linarith

/-- round2 never crosses a hundredth boundary upward: anything below
k/100 + 1/200 rounds to at most k/100. -/
theorem round2_le_halfcent (q : ℚ) (k : ℤ) (h : q < (k : ℚ) / 100 + 1 / 200) :
    round2 q ≤ (k : ℚ) / 100 := by
  unfold round2
  have hf : ⌊q * 100 + 1 / 2⌋ ≤ k := by
    have hlt : q * 100 + 1 / 2 < ((k + 1 : ℤ) : ℚ) := by push_cast; linarith
    exact Int.lt_add_one_iff.mp (Int.floor_lt.mpr hlt)
  have hc : ((⌊q * 100 + 1 / 2⌋ : ℤ) : ℚ) ≤ (k : ℚ) := by exact_mod_cast hf
  linarith

/-- One driving chunk keeps the state non-negative and emits only events
that start at a non-negative hour and end by 25.5. -/
theorem driveChunk_ok (now : ℤ) (pl tl : String) (driveHours : ℚ)
    (st : SimState) (h0 : 0 ≤ st.clock) (h1 : 0 ≤ st.dailyDrive)
    (h2 : st.dailyDrive < 11) (h3 : st.clock < 14) (h4 : 0 < driveHours) :
    StOk (driveChunk now pl tl driveHours st).1 ∧
    ∀ e ∈ (driveChunk now pl tl driveHours st).2.1.events, EventOk e := by
  have hb : 0 < MAX_DAILY_DRIVING - st.dailyDrive := by
    norm_num [MAX_DAILY_DRIVING]; linarith
  have hmin0 : 0 < min (MAX_DAILY_DRIVING - st.dailyDrive) driveHours :=
    lt_min hb h4
  have h11 : MAX_DAILY_DRIVING - st.dailyDrive ≤ 11 - st.dailyDrive := by
    norm_num [MAX_DAILY_DRIVING]
  have hminle : min (MAX_DAILY_DRIVING - st.dailyDrive) driveHours ≤
      11 - st.dailyDrive :=
    le_trans (min_le_left _ _) h11
  have hlt25 : st.clock + min (MAX_DAILY_DRIVING - st.dailyDrive) driveHours
      < 25 := by linarith
  simp only [driveChunk]
  split_ifs with hb8
  · refine ⟨⟨by simp; linarith, by simp⟩, ?_⟩
    intro e he
    simp only [List.mem_cons, List.not_mem_nil, or_false] at he
    rcases he with rfl | rfl
    · refine ⟨round2_nonneg _ h0, ?_⟩
      have hr := round2_le_halfcent
        (st.clock + min (MAX_DAILY_DRIVING - st.dailyDrive) driveHours) 2550
        (by push_cast; linarith)
      push_cast at hr
      simp only [EventOk]
      linarith
    · constructor
      · exact round2_nonneg _ (by linarith)
      · have hr := round2_le_halfcent
          (st.clock + min (MAX_DAILY_DRIVING - st.dailyDrive) driveHours + 1 / 2)
          2550 (by push_cast; linarith)
        push_cast at hr
        linarith
  · refine ⟨⟨by simp; linarith, by simp; linarith⟩, ?_⟩
    intro e he
    simp only [List.mem_cons, List.not_mem_nil, or_false] at he
    rcases he with rfl
    refine ⟨round2_nonneg _ h0, ?_⟩
    have hr := round2_le_halfcent
      (st.clock + min (MAX_DAILY_DRIVING - st.dailyDrive) driveHours) 2550
      (by push_cast; linarith)
    push_cast at hr
    linarith

/-- The whole while-loop keeps the state non-negative and emits only
events within the bounds. -/
theorem driveLoop_ok (now : ℤ) (pl tl : String) :
    ∀ (fuel : ℕ) (driveHours : ℚ) (st : SimState) (logs : List LogDay),
      StOk st → (∀ ld ∈ logs, ∀ e ∈ ld.events, EventOk e) →
      StOk (driveLoop now pl tl fuel driveHours st logs).1 ∧
      ∀ ld ∈ (driveLoop now pl tl fuel driveHours st logs).2,
        ∀ e ∈ ld.events, EventOk e := by
  intro fuel
  induction fuel with
  | zero =>
    intro dh st logs hst hlogs
    exact ⟨hst, hlogs⟩
  | succ n ih =>
    intro dh st logs hst hlogs
    rw [driveLoop]
    by_cases hpos : 0 < dh
    · simp only [hpos, if_true]
      by_cases hroll : MAX_DAILY_DRIVING ≤ st.dailyDrive ∨ 14 ≤ st.clock
      · simp only [hroll, if_true]
        have hmark : ∀ ld ∈ logs ++ [({ day := st.day,
                                         date := now + st.day - 1,
                                         events := [],
                                         odometer := round2 st.odometer } :
                                        LogDay)],
            ∀ e ∈ ld.events, EventOk e := by
          intro ld hld
          rcases List.mem_append.mp hld with hmem | hmem
          · exact hlogs ld hmem
          · simp only [List.mem_singleton] at hmem
            subst hmem
            intro e he
            cases he
        have hck := driveChunk_ok now pl tl dh
          { day := st.day + 1, clock := 0, odometer := st.odometer,
            dailyDrive := 0 }
          (by norm_num) (by norm_num) (by norm_num) (by norm_num) hpos
        refine ih _ _ _ hck.1 ?_
        intro ld hld
        rcases List.mem_append.mp hld with hmem | hmem
        · exact hmark ld hmem
        · simp only [List.mem_singleton] at hmem
          subst hmem
          exact hck.2
      · simp only [hroll, if_false]
        push_neg at hroll
        have hdd : st.dailyDrive < 11 := by
          have := hroll.1
          norm_num [MAX_DAILY_DRIVING] at this
          linarith
        have hck := driveChunk_ok now pl tl dh st hst.1 hst.2 hdd
          (by linarith [hroll.2]) hpos
        refine ih _ _ _ hck.1 ?_
        intro ld hld
        rcases List.mem_append.mp hld with hmem | hmem
        · exact hlogs ld hmem
        · simp only [List.mem_singleton] at hmem
          subst hmem
          exact hck.2
    · simp only [hpos, if_false]
      exact ⟨hst, hlogs⟩

/-- Recording a stop keeps the state non-negative and emits an event
within the bounds, provided the stop duration is between 0 and 24 hours. -/
theorem stopStep_ok (now : ℤ) (stop : Stop) (st : SimState)
    (logs : List LogDay) (hdur0 : 0 ≤ stop.duration_minutes)
    (hdur1 : stop.duration_minutes ≤ 1440) (hst : StOk st)
    (hlogs : ∀ ld ∈ logs, ∀ e ∈ ld.events, EventOk e) :
    StOk (stopStep now stop st logs).1 ∧
    ∀ ld ∈ (stopStep now stop st logs).2, ∀ e ∈ ld.events, EventOk e := by
  have hdq0 : (0 : ℚ) ≤ (stop.duration_minutes : ℚ) / 60 := by
    apply div_nonneg _ (by norm_num)
    exact_mod_cast hdur0
  have hdq1 : (stop.duration_minutes : ℚ) / 60 ≤ 24 := by
    rw [div_le_iff₀ (by norm_num : (0 : ℚ) < 60)]
    exact_mod_cast hdur1
  simp only [stopStep]
  split_ifs with hover
  · refine ⟨⟨by simp; linarith, by simp⟩, ?_⟩
    intro ld hld
    rcases List.mem_append.mp hld with hmem | hmem
    · exact hlogs ld hmem
    · simp only [List.mem_singleton] at hmem
      subst hmem
      intro e he
      simp only [List.mem_singleton] at he
      subst he
      refine ⟨round2_nonneg _ (by norm_num), ?_⟩
      have hr := round2_le_halfcent ((0 : ℚ) + (stop.duration_minutes : ℚ) / 60)
        2400 (by push_cast; linarith)
      push_cast at hr
      simp only []
      linarith
  · refine ⟨⟨by simp; linarith [hst.1], by simp; exact hst.2⟩, ?_⟩
    intro ld hld
    rcases List.mem_append.mp hld with hmem | hmem
    · exact hlogs ld hmem
    · simp only [List.mem_singleton] at hmem
      subst hmem
      intro e he
      simp only [List.mem_singleton] at he
      subst he
      refine ⟨round2_nonneg _ hst.1, ?_⟩
      push_neg at hover
      have hr := round2_le_halfcent (st.clock + (stop.duration_minutes : ℚ) / 60)
        2400 (by push_cast; linarith)
      push_cast at hr
      linarith

/-- The whole stop loop keeps every emitted event within the bounds. -/
theorem simSegments_ok (dist : Coord → Coord → ℚ) (now : ℤ)
    (total : ℚ) (n : ℕ) :
    ∀ (stops : List Stop) (prevOpt : Option Stop) (st : SimState)
      (logs : List LogDay),
      (∀ s ∈ stops, 0 ≤ s.duration_minutes ∧ s.duration_minutes ≤ 1440) →
      StOk st → (∀ ld ∈ logs, ∀ e ∈ ld.events, EventOk e) →
      StOk (simSegments dist now total n prevOpt stops st logs).1 ∧
      ∀ ld ∈ (simSegments dist now total n prevOpt stops st logs).2,
        ∀ e ∈ ld.events, EventOk e := by
  intro stops
  induction stops with
  | nil =>
    intro p st logs _ hst hlogs
    exact ⟨hst, hlogs⟩
  | cons stop rest ih =>
    intro p st logs hdur hst hlogs
    rcases p with _ | prev
    · simp only [simSegments]
      have hss := stopStep_ok now stop st logs (hdur stop (by simp)).1
        (hdur stop (by simp)).2 hst hlogs
      exact ih (some stop) _ _ (fun s hs => hdur s (by simp [hs])) hss.1 hss.2
    · simp only [simSegments]
      have hdl := driveLoop_ok now prev.location stop.location
        ((round2 ((match prev.metadata.coordinates,
              stop.metadata.coordinates with
            | some pc, some sc => dist pc sc
            | _, _ => total / ((n : ℚ) - 1)) / AVERAGE_SPEED)).ceil.toNat + 2)
        (round2 ((match prev.metadata.coordinates,
              stop.metadata.coordinates with
            | some pc, some sc => dist pc sc
            | _, _ => total / ((n : ℚ) - 1)) / AVERAGE_SPEED))
        st logs hst hlogs
      have hss := stopStep_ok now stop _ _ (hdur stop (by simp)).1
        (hdur stop (by simp)).2 hdl.1 hdl.2
      exact ih (some stop) _ _ (fun s hs => hdur s (by simp [hs])) hss.1 hss.2

/-- Evaluation of the simulator at two coordinate-free stops,
total_miles = 1100, current_cycle_used = 0, run date 0. -/
theorem sim1100_eval :
    generate_eld_logs_with_stops zeroDist 0 [pickupStopX, dropoffStopX]
      1100 0 = Except.ok sim1100Logs := by
  norm_num [generate_eld_logs_with_stops, simSegments, driveLoop, driveChunk,
    stopStep, round2, MAX_CYCLE_HOURS, MAX_DAILY_DRIVING, AVERAGE_SPEED,
    pickupStopX, dropoffStopX, zeroDist, sim1100Logs]
  simp

/-- Claim C3 counterexample: events are not confined to [0, 24): at two
coordinate-free stops and total_miles = 1100 the mandatory break after the
second 11-hour driving chunk of day 1 is recorded from 23.5 to exactly
24.0, so its end is not below 24. -/
theorem c3_end_lt_24_fails :
    ¬ (∀ (dist : Coord → Coord → ℚ) (now : ℤ) (stops : List Stop)
        (total_miles current_cycle_used : ℚ) (logs : List LogDay),
        generate_eld_logs_with_stops dist now stops total_miles
          current_cycle_used = Except.ok logs →
        ∀ ld ∈ logs, ∀ e ∈ ld.events, 0 ≤ e.start ∧ e.endT < 24) := by
  intro h
  have hall := h zeroDist 0 [pickupStopX, dropoffStopX] 1100 0 sim1100Logs
    sim1100_eval
  have hbad := (hall (sim1100Logs.get ⟨2, by norm_num [sim1100Logs]⟩) (by simp [sim1100Logs])
    { type := "on_duty", start := 47 / 2, endT := 24,
      location := "Mandatory 30-minute rest" } (by simp [sim1100Logs])).2
  norm_num at hbad

/-- Claim C3 (amended): every emitted event has a non-negative start, and
its end never passes 25.5 (driving may lawfully begin just before the
14-hour window check and run 11 hours, and the 30-minute break may follow;
stop events themselves never pass hour 24), provided every stop duration
lies between 0 and 1440 minutes. -/
theorem c3_event_bounds (dist : Coord → Coord → ℚ) (now : ℤ)
    (stops : List Stop) (total_miles current_cycle_used : ℚ)
    (logs : List LogDay) (hdur : ValidDurations stops)
    (h : generate_eld_logs_with_stops dist now stops total_miles
      current_cycle_used = Except.ok logs) : AllEventsOk logs := by
  unfold generate_eld_logs_with_stops at h
  split_ifs at h with hc
  injection h with h2
  subst h2
  exact (simSegments_ok dist now total_miles stops.length stops none
    { day := 1, clock := 0, odometer := 0, dailyDrive := 0 } [] hdur
    ⟨le_refl 0, le_refl 0⟩ (by intro ld hld; cases hld)).2

theorem c3_event_bounds_witness :
    ValidDurations [pickupStopX, dropoffStopX] ∧ AllEventsOk sim1100Logs :=
  ⟨by unfold ValidDurations; decide,
   c3_event_bounds zeroDist 0 [pickupStopX, dropoffStopX] 1100 0 sim1100Logs
     (by unfold ValidDurations; decide) sim1100_eval⟩


/-- Claim C8: whenever a driving chunk lifts the continuous-driving
counter to 8 hours or more, the emitted LogDay carries exactly the driving
event immediately followed by the 30-minute on_duty rest event (so no
further driving event of that day can precede the break), the clock
advances by the chunk plus half an hour, and the counter is reset to 0. -/
theorem c8_rest_break_after_eight_hours (now : ℤ) (prevLoc toLoc : String)
    (driveHours : ℚ) (st : SimState)
    (h : 8 ≤ st.dailyDrive + min (MAX_DAILY_DRIVING - st.dailyDrive) driveHours) :
    (driveChunk now prevLoc toLoc driveHours st).1.dailyDrive = 0 ∧
    (driveChunk now prevLoc toLoc driveHours st).1.clock =
      st.clock + min (MAX_DAILY_DRIVING - st.dailyDrive) driveHours + 1 / 2 ∧
    (driveChunk now prevLoc toLoc driveHours st).2.1.events =
      [{ type := "driving", start := round2 st.clock,
         endT := round2 (st.clock +
           min (MAX_DAILY_DRIVING - st.dailyDrive) driveHours),
         location := "Driving to " ++ toLoc,
         metadata := some { src := some prevLoc, dst := some toLoc,
                            estimated_miles := some (round2
                              (min (MAX_DAILY_DRIVING - st.dailyDrive)
                                driveHours * AVERAGE_SPEED)) } },
       { type := "on_duty",
         start := round2 (st.clock +
           min (MAX_DAILY_DRIVING - st.dailyDrive) driveHours),
         endT := round2 (st.clock +
           min (MAX_DAILY_DRIVING - st.dailyDrive) driveHours + 1 / 2),
         location := "Mandatory 30-minute rest" }] := by
  unfold driveChunk
  simp [h]

theorem c8_rest_break_after_eight_hours_witness :
    8 ≤ (0 : ℚ) + min (MAX_DAILY_DRIVING - 0) 9 ∧
    ((driveChunk 0 "A" "B" 9 { day := 1, clock := 0, odometer := 0,
                               dailyDrive := 0 }).1.dailyDrive = 0 ∧
     (driveChunk 0 "A" "B" 9 { day := 1, clock := 0, odometer := 0,
                               dailyDrive := 0 }).1.clock =
       0 + min (MAX_DAILY_DRIVING - 0) 9 + 1 / 2 ∧
     (driveChunk 0 "A" "B" 9 { day := 1, clock := 0, odometer := 0,
                               dailyDrive := 0 }).2.1.events =
       [{ type := "driving", start := round2 0,
          endT := round2 (0 + min (MAX_DAILY_DRIVING - 0) 9),
          location := "Driving to " ++ "B",
          metadata := some { src := some "A", dst := some "B",
                             estimated_miles := some (round2
                               (min (MAX_DAILY_DRIVING - 0) 9 *
                                 AVERAGE_SPEED)) } },
        { type := "on_duty", start := round2 (0 + min (MAX_DAILY_DRIVING - 0) 9),
          endT := round2 (0 + min (MAX_DAILY_DRIVING - 0) 9 + 1 / 2),
          location := "Mandatory 30-minute rest" }]) :=
  ⟨by norm_num [MAX_DAILY_DRIVING],
   c8_rest_break_after_eight_hours 0 "A" "B" 9
     { day := 1, clock := 0, odometer := 0, dailyDrive := 0 }
     (by norm_num [MAX_DAILY_DRIVING])⟩

/-- Claim C9 counterexample: the emitted logs embed the run date
(datetime.now), so two runs with identical trip input and identical stub
responses but different run dates produce different logs. -/
theorem c9_output_depends_on_run_date :
    generate_eld_logs_with_stops zeroDist 0 [pickupStopX] 0 0 ≠
    generate_eld_logs_with_stops zeroDist 1 [pickupStopX] 0 0 := by
  intro h
  exact absurd
    (congrArg (fun r => r.toOption.map (List.map LogDay.date)) h)
    (by norm_num [generate_eld_logs_with_stops, simSegments, stopStep,
      round2, MAX_CYCLE_HOURS, pickupStopX, zeroDist, Except.toOption])

/-- round2 produces whole hundredths. -/
theorem cent_round2 (q : ℚ) : Cent (round2 q) := ⟨⌊q * 100 + 1 / 2⌋, rfl⟩

/-- round2 is the identity on whole hundredths. -/
theorem round2_eq_of_cent (q : ℚ) (h : Cent q) : round2 q = q := by
  obtain ⟨k, rfl⟩ := h
  unfold round2
  have h1 : (k : ℚ) / 100 * 100 + 1 / 2 = (k : ℚ) + 1 / 2 := by ring
  rw [h1, Int.floor_int_add]
  norm_num

theorem cent_add {a b : ℚ} (ha : Cent a) (hb : Cent b) : Cent (a + b) := by
  obtain ⟨j, rfl⟩ := ha
  obtain ⟨k, rfl⟩ := hb
  exact ⟨j + k, by push_cast; ring⟩

theorem cent_sub {a b : ℚ} (ha : Cent a) (hb : Cent b) : Cent (a - b) := by
  obtain ⟨j, rfl⟩ := ha
  obtain ⟨k, rfl⟩ := hb
  exact ⟨j - k, by push_cast; ring⟩

theorem cent_min {a b : ℚ} (ha : Cent a) (hb : Cent b) : Cent (min a b) := by
  rcases le_total a b with h | h
  · rw [min_eq_left h]; exact ha
  · rw [min_eq_right h]; exact hb

theorem cent_zero : Cent 0 := ⟨0, by norm_num⟩

theorem cent_max_daily : Cent MAX_DAILY_DRIVING :=
  ⟨1100, by norm_num [MAX_DAILY_DRIVING]⟩

theorem cent_mul_speed {a : ℚ} (ha : Cent a) : Cent (a * AVERAGE_SPEED) := by
  obtain ⟨k, rfl⟩ := ha
  refine ⟨k * 50, ?_⟩
  push_cast
  norm_num [AVERAGE_SPEED]
  ring

/-- Appending one element to a chain preserves it when the element relates
to the previous last element. -/
theorem chain'_concat {α : Type} {R : α → α → Prop} {l : List α} {e : α}
    (hc : List.Chain' R l) (h : ∀ a, l.getLast? = some a → R a e) :
    List.Chain' R (l ++ [e]) := by
  rw [List.chain'_append]
  refine ⟨hc, List.chain'_singleton e, ?_⟩
  intro x hx y hy
  simp only [List.head?_cons, Option.mem_def, Option.some.injEq] at hy
  subst hy
  exact h x (Option.mem_def.mp hx)

/-- odoStep through an entry with no events. -/
theorem odoStep_nil (a b : LogDay) (h : b.events = []) :
    odoStep a b ↔ b.odometer = a.odometer := by
  unfold odoStep
  simp only [h]

/-- odoStep through an entry headed by a driving event. -/
theorem odoStep_driving (a b : LogDay) (e : Event) (tlEvents : List Event)
    (h : b.events = e :: tlEvents) (ht : e.type = "driving") :
    odoStep a b ↔ ∃ m miles, e.metadata = some m ∧
      m.estimated_miles = some miles ∧ b.odometer = a.odometer + miles := by
  unfold odoStep
  simp only [h]
  rw [if_pos ht]

/-- odoStep through an entry headed by a non-driving event. -/
theorem odoStep_not_driving (a b : LogDay) (e : Event) (tlEvents : List Event)
    (h : b.events = e :: tlEvents) (ht : ¬ e.type = "driving") :
    odoStep a b ↔ b.odometer = a.odometer := by
  unfold odoStep
  simp only [h]
  rw [if_neg ht]

/-- Odometer bookkeeping of a single driving chunk: the state odometer
advances by chunk × speed (a whole hundredth), the emitted entry shows the
rounded state odometer, and relative to any entry showing the previous
odometer the new entry is an odoStep increase. -/
theorem driveChunk_odo (now : ℤ) (pl tl : String) (dh : ℚ) (st : SimState)
    (h1 : 0 ≤ st.dailyDrive) (h2 : st.dailyDrive < 11) (h4 : 0 < dh)
    (hco : Cent st.odometer) (hcd : Cent st.dailyDrive) (hch : Cent dh) :
    Cent (driveChunk now pl tl dh st).1.odometer ∧
    Cent (driveChunk now pl tl dh st).1.dailyDrive ∧
    0 ≤ (driveChunk now pl tl dh st).1.dailyDrive ∧
    Cent (driveChunk now pl tl dh st).2.2 ∧
    (driveChunk now pl tl dh st).2.1.odometer =
      round2 (driveChunk now pl tl dh st).1.odometer ∧
    ∀ a : LogDay, a.odometer = round2 st.odometer →
      odoStep a (driveChunk now pl tl dh st).2.1 ∧
      a.odometer ≤ (driveChunk now pl tl dh st).2.1.odometer := by
  have hcchunk : Cent (min (MAX_DAILY_DRIVING - st.dailyDrive) dh) :=
    cent_min (cent_sub cent_max_daily hcd) hch
  have hchunk0 : 0 < min (MAX_DAILY_DRIVING - st.dailyDrive) dh := by
    refine lt_min ?_ h4
    norm_num [MAX_DAILY_DRIVING]
    linarith
  have hprod : 0 ≤ min (MAX_DAILY_DRIVING - st.dailyDrive) dh * AVERAGE_SPEED :=
    mul_nonneg (le_of_lt hchunk0) (by norm_num [AVERAGE_SPEED])
  have hcodo : Cent (st.odometer +
      min (MAX_DAILY_DRIVING - st.dailyDrive) dh * AVERAGE_SPEED) :=
    cent_add hco (cent_mul_speed hcchunk)
  simp only [driveChunk]
  split_ifs with hb8
  · refine ⟨hcodo, cent_zero, le_refl 0, cent_sub hch hcchunk, rfl, ?_⟩
    intro a ha
    constructor
    · rw [odoStep_driving _ _ _ _ rfl rfl]
      refine ⟨_, round2 (min (MAX_DAILY_DRIVING - st.dailyDrive) dh *
        AVERAGE_SPEED), rfl, rfl, ?_⟩
      show round2 (st.odometer +
          min (MAX_DAILY_DRIVING - st.dailyDrive) dh * AVERAGE_SPEED) =
        a.odometer + round2 (min (MAX_DAILY_DRIVING - st.dailyDrive) dh *
          AVERAGE_SPEED)
      rw [ha, round2_eq_of_cent _ hco, round2_eq_of_cent _ hcodo,
        round2_eq_of_cent _ (cent_mul_speed hcchunk)]
    · show a.odometer ≤ round2 (st.odometer +
        min (MAX_DAILY_DRIVING - st.dailyDrive) dh * AVERAGE_SPEED)
      rw [ha, round2_eq_of_cent _ hco, round2_eq_of_cent _ hcodo]
      linarith
  · refine ⟨hcodo, cent_add hcd hcchunk, ?_, cent_sub hch hcchunk, rfl, ?_⟩
    · show (0 : ℚ) ≤ st.dailyDrive +
        min (MAX_DAILY_DRIVING - st.dailyDrive) dh
      linarith
    · intro a ha
      constructor
      · rw [odoStep_driving _ _ _ _ rfl rfl]
        refine ⟨_, round2 (min (MAX_DAILY_DRIVING - st.dailyDrive) dh *
          AVERAGE_SPEED), rfl, rfl, ?_⟩
        show round2 (st.odometer +
            min (MAX_DAILY_DRIVING - st.dailyDrive) dh * AVERAGE_SPEED) =
          a.odometer + round2 (min (MAX_DAILY_DRIVING - st.dailyDrive) dh *
            AVERAGE_SPEED)
        rw [ha, round2_eq_of_cent _ hco, round2_eq_of_cent _ hcodo,
          round2_eq_of_cent _ (cent_mul_speed hcchunk)]
      · show a.odometer ≤ round2 (st.odometer +
          min (MAX_DAILY_DRIVING - st.dailyDrive) dh * AVERAGE_SPEED)
        rw [ha, round2_eq_of_cent _ hco, round2_eq_of_cent _ hcodo]
        linarith

/-- Odometer bookkeeping through the whole while-loop. -/
theorem driveLoop_odo (now : ℤ) (pl tl : String) :
    ∀ (fuel : ℕ) (dh : ℚ) (st : SimState) (logs : List LogDay),
      0 ≤ st.dailyDrive → Cent st.odometer → Cent st.dailyDrive → Cent dh →
      OdoLogsInv st logs →
      0 ≤ (driveLoop now pl tl fuel dh st logs).1.dailyDrive ∧
      Cent (driveLoop now pl tl fuel dh st logs).1.odometer ∧
      Cent (driveLoop now pl tl fuel dh st logs).1.dailyDrive ∧
      OdoLogsInv (driveLoop now pl tl fuel dh st logs).1
        (driveLoop now pl tl fuel dh st logs).2 := by
  intro fuel
  induction fuel with
  | zero =>
    intro dh st logs h0 hco hcd hch hinv
    exact ⟨h0, hco, hcd, hinv⟩
  | succ n ih =>
    intro dh st logs h0 hco hcd hch hinv
    rw [driveLoop]
    by_cases hpos : 0 < dh
    · simp only [hpos, if_true]
      by_cases hroll : MAX_DAILY_DRIVING ≤ st.dailyDrive ∨ 14 ≤ st.clock
      · simp only [hroll, if_true]
        have hinv' : OdoLogsInv
            ({ day := st.day + 1, clock := 0, odometer := st.odometer,
               dailyDrive := 0 } : SimState)
            (logs ++ [({ day := st.day, date := now + st.day - 1,
                         events := [],
                         odometer := round2 st.odometer } : LogDay)]) := by
          obtain ⟨hmono, hsteps, hlast⟩ := hinv
          refine ⟨chain'_concat hmono ?_, chain'_concat hsteps ?_, ?_⟩
          · intro a hA
            rw [hlast a hA]
          · intro a hA
            rw [odoStep_nil _ _ rfl, hlast a hA]
          · intro a hA
            rw [List.getLast?_concat] at hA
            injection hA with h2
            subst h2
            rfl
        have hdc := driveChunk_odo now pl tl dh
          ({ day := st.day + 1, clock := 0, odometer := st.odometer,
             dailyDrive := 0 } : SimState)
          (le_refl 0) (by norm_num) hpos hco cent_zero hch
        apply ih
        · exact hdc.2.2.1
        · exact hdc.1
        · exact hdc.2.1
        · exact hdc.2.2.2.1
        · obtain ⟨hmono', hsteps', hlast'⟩ := hinv'
          have hstep := hdc.2.2.2.2.2
          refine ⟨chain'_concat hmono' ?_, chain'_concat hsteps' ?_, ?_⟩
          · intro a hA
            exact (hstep a (hlast' a hA)).2
          · intro a hA
            exact (hstep a (hlast' a hA)).1
          · intro a hA
            rw [List.getLast?_concat] at hA
            injection hA with h2
            subst h2
            exact hdc.2.2.2.2.1
      · simp only [hroll, if_false]
        push_neg at hroll
        have hdd : st.dailyDrive < 11 := by
          have hlt := hroll.1
          norm_num [MAX_DAILY_DRIVING] at hlt
          linarith
        have hdc := driveChunk_odo now pl tl dh st h0 hdd hpos hco hcd hch
        apply ih
        · exact hdc.2.2.1
        · exact hdc.1
        · exact hdc.2.1
        · exact hdc.2.2.2.1
        · obtain ⟨hmono, hsteps, hlast⟩ := hinv
          have hstep := hdc.2.2.2.2.2
          refine ⟨chain'_concat hmono ?_, chain'_concat hsteps ?_, ?_⟩
          · intro a hA
            exact (hstep a (hlast a hA)).2
          · intro a hA
            exact (hstep a (hlast a hA)).1
          · intro a hA
            rw [List.getLast?_concat] at hA
            injection hA with h2
            subst h2
            exact hdc.2.2.2.2.1
    · simp only [hpos, if_false]
      exact ⟨h0, hco, hcd, hinv⟩

/-- Odometer bookkeeping through a stop event: the odometer is untouched
and the entry is an odoStep-neutral record. -/
theorem stopStep_odo (now : ℤ) (stop : Stop) (st : SimState)
    (logs : List LogDay) (htype : ¬ stop.stop_type = "driving")
    (h0 : 0 ≤ st.dailyDrive) (hco : Cent st.odometer)
    (hcd : Cent st.dailyDrive) (hinv : OdoLogsInv st logs) :
    0 ≤ (stopStep now stop st logs).1.dailyDrive ∧
    Cent (stopStep now stop st logs).1.odometer ∧
    Cent (stopStep now stop st logs).1.dailyDrive ∧
    OdoLogsInv (stopStep now stop st logs).1 (stopStep now stop st logs).2 := by
  obtain ⟨hmono, hsteps, hlast⟩ := hinv
  simp only [stopStep]
  split_ifs with hover
  · refine ⟨le_refl 0, hco, cent_zero,
      chain'_concat hmono ?_, chain'_concat hsteps ?_, ?_⟩
    · intro a hA
      rw [hlast a hA]
    · intro a hA
      rw [odoStep_not_driving _ _ _ _ rfl htype, hlast a hA]
    · intro a hA
      rw [List.getLast?_concat] at hA
      injection hA with h2
      subst h2
      rfl
  · refine ⟨h0, hco, hcd,
      chain'_concat hmono ?_, chain'_concat hsteps ?_, ?_⟩
    · intro a hA
      rw [hlast a hA]
    · intro a hA
      rw [odoStep_not_driving _ _ _ _ rfl htype, hlast a hA]
    · intro a hA
      rw [List.getLast?_concat] at hA
      injection hA with h2
      subst h2
      rfl

/-- Odometer bookkeeping through the whole stop loop. -/
theorem simSegments_odo (dist : Coord → Coord → ℚ) (now : ℤ)
    (total : ℚ) (n : ℕ) :
    ∀ (stops : List Stop) (prevOpt : Option Stop) (st : SimState)
      (logs : List LogDay),
      (∀ s ∈ stops, ¬ s.stop_type = "driving") →
      0 ≤ st.dailyDrive → Cent st.odometer → Cent st.dailyDrive →
      OdoLogsInv st logs →
      0 ≤ (simSegments dist now total n prevOpt stops st logs).1.dailyDrive ∧
      Cent (simSegments dist now total n prevOpt stops st logs).1.odometer ∧
      Cent (simSegments dist now total n prevOpt stops st logs).1.dailyDrive ∧
      OdoLogsInv (simSegments dist now total n prevOpt stops st logs).1
        (simSegments dist now total n prevOpt stops st logs).2 := by
  intro stops
  induction stops with
  | nil =>
    intro p st logs _ h0 hco hcd hinv
    exact ⟨h0, hco, hcd, hinv⟩
  | cons stop rest ih =>
    intro p st logs hnd h0 hco hcd hinv
    rcases p with _ | prev
    · simp only [simSegments]
      have hss := stopStep_odo now stop st logs (hnd stop (by simp)) h0 hco
        hcd hinv
      exact ih (some stop) _ _ (fun s hs => hnd s (by simp [hs])) hss.1
        hss.2.1 hss.2.2.1 hss.2.2.2
    · simp only [simSegments]
      have hdl := driveLoop_odo now prev.location stop.location
        ((round2 ((match prev.metadata.coordinates,
              stop.metadata.coordinates with
            | some pc, some sc => dist pc sc
            | _, _ => total / ((n : ℚ) - 1)) / AVERAGE_SPEED)).ceil.toNat + 2)
        (round2 ((match prev.metadata.coordinates,
              stop.metadata.coordinates with
            | some pc, some sc => dist pc sc
            | _, _ => total / ((n : ℚ) - 1)) / AVERAGE_SPEED))
        st logs h0 hco hcd (cent_round2 _) hinv
      have hss := stopStep_odo now stop _ _ (hnd stop (by simp)) hdl.1
        hdl.2.1 hdl.2.2.1 hdl.2.2.2
      exact ih (some stop) _ _ (fun s hs => hnd s (by simp [hs])) hss.1
        hss.2.1 hss.2.2.1 hss.2.2.2

/-- Claim C10: in emission order the odometer column never decreases, a
LogDay headed by a driving event advances the odometer by exactly the
recorded estimated_miles of that event (chunk × 50), and every other
LogDay (stop events, rest-only days, empty day markers) leaves it
unchanged — for any stop list whose stop_type fields are among the model
choices (rest, fuel, pickup, dropoff). -/
theorem c10_odometer_monotone (dist : Coord → Coord → ℚ) (now : ℤ)
    (stops : List Stop) (total_miles current_cycle_used : ℚ)
    (logs : List LogDay) (htypes : ValidStopTypes stops)
    (h : generate_eld_logs_with_stops dist now stops total_miles
      current_cycle_used = Except.ok logs) :
    OdoMono logs ∧ OdoSteps logs := by
  have hnd : ∀ s ∈ stops, ¬ s.stop_type = "driving" := by
    intro s hs hdrv
    have hmem := htypes s hs
    rw [hdrv] at hmem
    simp [stopTypeChoices] at hmem
  unfold generate_eld_logs_with_stops at h
  split_ifs at h with hc
  injection h with h2
  subst h2
  have hres := simSegments_odo dist now total_miles stops.length stops none
    { day := 1, clock := 0, odometer := 0, dailyDrive := 0 } [] hnd
    (le_refl 0) cent_zero cent_zero
    ⟨List.chain'_nil, List.chain'_nil, by intro a hA; exact absurd hA (by simp)⟩
  exact ⟨hres.2.2.2.1, hres.2.2.2.2.1⟩

theorem c10_odometer_monotone_witness :
    ValidStopTypes [pickupStopX, dropoffStopX] ∧
      (OdoMono sim1100Logs ∧ OdoSteps sim1100Logs) :=
  ⟨by unfold ValidStopTypes; decide,
   c10_odometer_monotone zeroDist 0 [pickupStopX, dropoffStopX] 1100 0
     sim1100Logs (by unfold ValidStopTypes; decide) sim1100_eval⟩

/-- Erasing dates distributes over appending one entry. -/
theorem erase_concat (l : List LogDay) (e : LogDay) :
    eraseDates (l ++ [e]) = eraseDates l ++ [eraseLD e] := by
  simp [eraseDates]

/-- A driving chunk depends on the run date only through the date field of
the entry it emits. -/
theorem driveChunk_erase (now now' : ℤ) (pl tl : String) (dh : ℚ)
    (st : SimState) :
    (driveChunk now pl tl dh st).1 = (driveChunk now' pl tl dh st).1 ∧
    eraseLD (driveChunk now pl tl dh st).2.1 =
      eraseLD (driveChunk now' pl tl dh st).2.1 ∧
    (driveChunk now pl tl dh st).2.2 = (driveChunk now' pl tl dh st).2.2 := by
  simp only [driveChunk]
  split_ifs with h <;> exact ⟨rfl, rfl, rfl⟩

/-- The while-loop depends on the run date only through the date fields. -/
theorem driveLoop_erase (now now' : ℤ) (pl tl : String) :
    ∀ (fuel : ℕ) (dh : ℚ) (st : SimState) (logs logs' : List LogDay),
      eraseDates logs = eraseDates logs' →
      (driveLoop now pl tl fuel dh st logs).1 =
        (driveLoop now' pl tl fuel dh st logs').1 ∧
      eraseDates (driveLoop now pl tl fuel dh st logs).2 =
        eraseDates (driveLoop now' pl tl fuel dh st logs').2 := by
  intro fuel
  induction fuel with
  | zero =>
    intro dh st logs logs' h
    exact ⟨rfl, h⟩
  | succ n ih =>
    intro dh st logs logs' h
    rw [driveLoop, driveLoop]
    by_cases hpos : 0 < dh
    · simp only [hpos, if_true]
      by_cases hroll : MAX_DAILY_DRIVING ≤ st.dailyDrive ∨ 14 ≤ st.clock
      · simp only [hroll, if_true]
        have hdc := driveChunk_erase now now' pl tl dh
          ({ day := st.day + 1, clock := 0, odometer := st.odometer,
             dailyDrive := 0 } : SimState)
        rw [hdc.1, hdc.2.2]
        apply ih
        rw [erase_concat, erase_concat, erase_concat, erase_concat, h,
          hdc.2.1]
        simp [eraseLD]
      · simp only [hroll, if_false]
        have hdc := driveChunk_erase now now' pl tl dh st
        rw [hdc.1, hdc.2.2]
        apply ih
        rw [erase_concat, erase_concat, h, hdc.2.1]
    · simp only [hpos, if_false]
      exact ⟨by trivial, h⟩

/-- A stop event depends on the run date only through the date field. -/
theorem stopStep_erase (now now' : ℤ) (stop : Stop) (st : SimState)
    (logs logs' : List LogDay) (h : eraseDates logs = eraseDates logs') :
    (stopStep now stop st logs).1 = (stopStep now' stop st logs').1 ∧
    eraseDates (stopStep now stop st logs).2 =
      eraseDates (stopStep now' stop st logs').2 := by
  simp only [stopStep]
  split_ifs with hover <;>
    exact ⟨by trivial, by rw [erase_concat, erase_concat, h]; simp [eraseLD]⟩

/-- Variant of stopStep_erase for two states known to be equal. -/
theorem stopStep_erase2 (now now' : ℤ) (stop : Stop) (st st' : SimState)
    (hstEq : st = st') (logs logs' : List LogDay)
    (h : eraseDates logs = eraseDates logs') :
    (stopStep now stop st logs).1 = (stopStep now' stop st' logs').1 ∧
    eraseDates (stopStep now stop st logs).2 =
      eraseDates (stopStep now' stop st' logs').2 := by
  subst hstEq
  exact stopStep_erase now now' stop st logs logs' h

/-- The stop loop depends on the run date only through the date fields. -/
theorem simSegments_erase (dist : Coord → Coord → ℚ) (now now' : ℤ)
    (total : ℚ) (n : ℕ) :
    ∀ (stops : List Stop) (prevOpt : Option Stop) (st : SimState)
      (logs logs' : List LogDay),
      eraseDates logs = eraseDates logs' →
      (simSegments dist now total n prevOpt stops st logs).1 =
        (simSegments dist now' total n prevOpt stops st logs').1 ∧
      eraseDates (simSegments dist now total n prevOpt stops st logs).2 =
        eraseDates (simSegments dist now' total n prevOpt stops st logs').2 := by
  intro stops
  induction stops with
  | nil =>
    intro p st logs logs' h
    exact ⟨rfl, h⟩
  | cons stop rest ih =>
    intro p st logs logs' h
    rcases p with _ | prev
    · simp only [simSegments]
      have hss := stopStep_erase now now' stop st logs logs' h
      rw [hss.1]
      exact ih (some stop) _ _ _ hss.2
    · simp only [simSegments]
      have hdl := driveLoop_erase now now' prev.location stop.location
        ((round2 ((match prev.metadata.coordinates,
              stop.metadata.coordinates with
            | some pc, some sc => dist pc sc
            | _, _ => total / ((n : ℚ) - 1)) / AVERAGE_SPEED)).ceil.toNat + 2)
        (round2 ((match prev.metadata.coordinates,
              stop.metadata.coordinates with
            | some pc, some sc => dist pc sc
            | _, _ => total / ((n : ℚ) - 1)) / AVERAGE_SPEED))
        st logs logs' h
      have hss := stopStep_erase2 now now' stop _ _ hdl.1 _ _ hdl.2
      rw [hss.1]
      exact ih (some stop) _ _ _ hss.2

/-- Claim C9 (amended): with the external stubs fixed, the pipeline is
deterministic up to the calendar-date fields: two runs that differ only in
the run date produce logs that agree once every date field is erased (and
the Stop Planner, which never reads the clock, is a pure function of its
stub inputs outright). -/
theorem c9_deterministic_up_to_dates (dist : Coord → Coord → ℚ)
    (now now' : ℤ) (stops : List Stop)
    (total_miles current_cycle_used : ℚ) :
    Except.map eraseDates
      (generate_eld_logs_with_stops dist now stops total_miles
        current_cycle_used) =
    Except.map eraseDates
      (generate_eld_logs_with_stops dist now' stops total_miles
        current_cycle_used) := by
  unfold generate_eld_logs_with_stops
  split_ifs with hc
  · rfl
  · simp only [Except.map]
    congr 1
    exact (simSegments_erase dist now now' total_miles stops.length stops
      none { day := 1, clock := 0, odometer := 0, dailyDrive := 0 }
      [] [] rfl).2

end EldPlanner
